import Mathlib

/-!
Verification of the ordinal rarity core (crates/ordinals/src/rarity.rs).

The Rust enum `Rarity` and its conversions (`From<Rarity> for u8`,
`TryFrom<u8> for Rarity`, `Display`, `FromStr`) are pure and are embedded
directly.  The derivation `impl From<Sat> for Rarity` first decomposes the
sat into a `Degree { hour, minute, second, third }` and looks up
`sat.epoch().subsidy()`; that decomposition and the protocol constants
`SUBSIDY_HALVING_INTERVAL` and `DIFFCHANGE_INTERVAL` live outside this
crate's source, so here the derivation takes the degree, the subsidy and
the two interval constants as explicit arguments.  The `u64` subtraction
`sat.epoch().subsidy() - 1` can underflow when the subsidy is `0`; the
embedding returns `none` in that case, modelling the Rust panic.
-/

inductive Rarity where
  | Common
  | Uncommon
  | Rare
  | Epic
  | Legendary
  | Mythic
  | BlackUncommon
  | BlackRare
  | BlackEpic
  | BlackLegendary
deriving DecidableEq, Repr, Fintype

/-- Discriminant of the Rust enum, in declaration order. -/
def Rarity.num : Rarity → Nat
  | .Common => 0
  | .Uncommon => 1
  | .Rare => 2
  | .Epic => 3
  | .Legendary => 4
  | .Mythic => 5
  | .BlackUncommon => 6
  | .BlackRare => 7
  | .BlackEpic => 8
  | .BlackLegendary => 9

/-- `impl From<Rarity> for u8`: the cast `rarity as u8`, which is the
declaration-order discriminant and is total over all ten variants. -/
def rarityToU8 (r : Rarity) : Nat := r.num

/-- `impl TryFrom<u8> for Rarity`: decodes `0`–`5` to the six
first-position tiers and fails with the offending integer otherwise.
The argument ranges over the `u8` domain `0`–`255`. -/
def Rarity.try_from (n : Nat) : Except Nat Rarity :=
  match n with
  | 0 => Except.ok .Common
  | 1 => Except.ok .Uncommon
  | 2 => Except.ok .Rare
  | 3 => Except.ok .Epic
  | 4 => Except.ok .Legendary
  | 5 => Except.ok .Mythic
  | n => Except.error n

/-- `impl Display for Rarity`: the canonical lowercase snake-case name. -/
def Rarity.display : Rarity → String
  | .Common => "common"
  | .Uncommon => "uncommon"
  | .Rare => "rare"
  | .Epic => "epic"
  | .Legendary => "legendary"
  | .Mythic => "mythic"
  | .BlackUncommon => "black_uncommon"
  | .BlackRare => "black_rare"
  | .BlackEpic => "black_epic"
  | .BlackLegendary => "black_legendary"

/-- `impl FromStr for Rarity`: matches the ten canonical names and
otherwise fails with the message `invalid rarity` followed by the input
surrounded by backticks, as produced by the Rust `format!`. -/
def Rarity.from_str (s : String) : Except String Rarity :=
  if s = "common" then Except.ok .Common
  else if s = "uncommon" then Except.ok .Uncommon
  else if s = "rare" then Except.ok .Rare
  else if s = "epic" then Except.ok .Epic
  else if s = "legendary" then Except.ok .Legendary
  else if s = "mythic" then Except.ok .Mythic
  else if s = "black_uncommon" then Except.ok .BlackUncommon
  else if s = "black_rare" then Except.ok .BlackRare
  else if s = "black_epic" then Except.ok .BlackEpic
  else if s = "black_legendary" then Except.ok .BlackLegendary
  else Except.error ("invalid rarity `" ++ s ++ "`")

/-- The four-level positional coordinate returned by `sat.degree()`:
`hour` is the halving epoch, `minute` the block height from the start of
the epoch, `second` the height from the start of the difficulty period,
and `third` the sat's index within the block's subsidy. -/
structure Degree where
  hour : Nat
  minute : Nat
  second : Nat
  third : Nat
deriving DecidableEq, Repr

/-- `impl From<Sat> for Rarity` after the external decomposition:
`d` is `sat.degree()`, `subsidy` is `sat.epoch().subsidy()`, and
`eraLength`, `periodLength` are the protocol constants
`SUBSIDY_HALVING_INTERVAL` and `DIFFCHANGE_INTERVAL`.  Returns `none`
exactly when the Rust subtraction `subsidy - 1` would underflow. -/
def deriveRarity (d : Degree) (subsidy eraLength periodLength : Nat) :
    Option Rarity :=
  if d.hour = 0 ∧ d.minute = 0 ∧ d.second = 0 ∧ d.third = 0 then
    some .Mythic
  else if d.minute = 0 ∧ d.second = 0 ∧ d.third = 0 then
    some .Legendary
  else if d.minute = 0 ∧ d.third = 0 then
    some .Epic
  else if d.second = 0 ∧ d.third = 0 then
    some .Rare
  else if d.third = 0 then
    some .Uncommon
  else if subsidy = 0 then
    none
  else if d.third = subsidy - 1 then
    if d.minute = eraLength - 1 then
      if d.second = periodLength - 1 then
        some .BlackLegendary
      else
        some .BlackEpic
    else if d.second = periodLength - 1 then
      some .BlackRare
    else
      some .BlackUncommon
  else
    some .Common

/-- The Rust `#[derive(PartialOrd)]` on a fieldless enum compares
discriminants, i.e. declaration order. -/
instance : LT Rarity := ⟨fun a b => a.num < b.num⟩

instance (a b : Rarity) : Decidable (a < b) :=
  inferInstanceAs (Decidable (a.num < b.num))

/-- The ten tiers in declaration order. -/
def tierOrder : List Rarity :=
  [.Common, .Uncommon, .Rare, .Epic, .Legendary, .Mythic,
   .BlackUncommon, .BlackRare, .BlackEpic, .BlackLegendary]

/-- The six first-position tiers in numeric-encoding order. -/
def sixTiers : List Rarity :=
  [.Common, .Uncommon, .Rare, .Epic, .Legendary, .Mythic]

/-- The ten canonical snake-case names, in declaration order. -/
def canonicalNames : List String :=
  ["common", "uncommon", "rare", "epic", "legendary", "mythic",
   "black_uncommon", "black_rare", "black_epic", "black_legendary"]

/-- C1: for a coordinate whose subsidy position is `0`, the derivation
returns the first-position tier selected by the ordered rules (Mythic,
then Legendary, then Epic, then Rare, then Uncommon), and Mythic is
returned exactly when all four coordinate components are `0`. -/
theorem C1_first_position_rules (d : Degree)
    (subsidy eraLength periodLength : Nat) (h : d.third = 0) :
    deriveRarity d subsidy eraLength periodLength =
      some
        (if d.hour = 0 ∧ d.minute = 0 ∧ d.second = 0 then Rarity.Mythic
         else if d.minute = 0 ∧ d.second = 0 then Rarity.Legendary
         else if d.minute = 0 then Rarity.Epic
         else if d.second = 0 then Rarity.Rare
         else Rarity.Uncommon) ∧
    (deriveRarity d subsidy eraLength periodLength = some Rarity.Mythic ↔
      d.hour = 0 ∧ d.minute = 0 ∧ d.second = 0 ∧ d.third = 0) := by
  constructor
  · simp only [deriveRarity, h]
    by_cases hho : d.hour = 0 <;> by_cases hmi : d.minute = 0 <;>
      by_cases hse : d.second = 0 <;> simp [hho, hmi, hse]
  · simp only [deriveRarity, h]
    by_cases hho : d.hour = 0 <;> by_cases hmi : d.minute = 0 <;>
      by_cases hse : d.second = 0 <;> simp [hho, hmi, hse]

/-- Witness for C1 at the origin coordinate. -/
theorem C1_first_position_rules_witness :
    deriveRarity ⟨0, 0, 0, 0⟩ 50 210000 2016 = some Rarity.Mythic :=
  (C1_first_position_rules ⟨0, 0, 0, 0⟩ 50 210000 2016 rfl).2.mpr
    (by decide)

/-- C2: for a coordinate satisfying the invariant with a nonzero subsidy
position, the derivation returns the black tier selected by the last-unit
sub-rules when the position is the last of the block's reward, and Common
otherwise. -/
theorem C2_last_position_rules (d : Degree)
    (subsidy eraLength periodLength : Nat)
    (h0 : d.third ≠ 0) (hinv : d.third < subsidy) :
    (d.third = subsidy - 1 →
      deriveRarity d subsidy eraLength periodLength =
        some
          (if d.minute = eraLength - 1 ∧ d.second = periodLength - 1 then
             Rarity.BlackLegendary
           else if d.minute = eraLength - 1 then Rarity.BlackEpic
           else if d.second = periodLength - 1 then Rarity.BlackRare
           else Rarity.BlackUncommon)) ∧
    (d.third ≠ subsidy - 1 →
      deriveRarity d subsidy eraLength periodLength = some Rarity.Common) := by
  have hs : ¬subsidy = 0 := by omega
  constructor
  · intro hlast
    have h1 : ¬subsidy - 1 = 0 := by omega
    by_cases hm : d.minute = eraLength - 1 <;>
      by_cases hsec : d.second = periodLength - 1 <;>
        simp [deriveRarity, h0, hs, hlast, h1, hm, hsec]
  · intro hne
    simp [deriveRarity, h0, hs, hne]

/-- Witness for C2: the sat just before a coinciding era and period
boundary is BlackLegendary, and an interior sat is Common. -/
theorem C2_last_position_rules_witness :
    deriveRarity ⟨0, 209999, 2015, 49⟩ 50 210000 2016 =
      some Rarity.BlackLegendary ∧
    deriveRarity ⟨0, 5, 5, 7⟩ 50 210000 2016 = some Rarity.Common :=
  ⟨(C2_last_position_rules ⟨0, 209999, 2015, 49⟩ 50 210000 2016
      (by decide) (by decide)).1 (by decide),
   (C2_last_position_rules ⟨0, 5, 5, 7⟩ 50 210000 2016
      (by decide) (by decide)).2 (by decide)⟩

/-- C4: on any coordinate satisfying the invariant
`subsidyPosition < subsidyForEpoch`, the derivation is total: it returns a
tier and the subtraction `subsidy - 1` never underflows. -/
theorem C4_totality (d : Degree) (subsidy eraLength periodLength : Nat)
    (hinv : d.third < subsidy) :
    (deriveRarity d subsidy eraLength periodLength).isSome := by
  have hs : ¬subsidy = 0 := by omega
  simp only [deriveRarity]
  split_ifs <;> simp_all

/-- Witness for C4 at a concrete in-range coordinate. -/
theorem C4_totality_witness :
    (deriveRarity ⟨1, 2, 3, 4⟩ 50 210000 2016).isSome :=
  C4_totality ⟨1, 2, 3, 4⟩ 50 210000 2016 (by decide)

/-- C10: when the subsidy is `1` the only in-range subsidy position is
`0`, so the derivation returns a first-position tier and never a black
tier; consequently a black tier requires a subsidy of at least `2`. -/
theorem C10_black_needs_subsidy_two (d : Degree)
    (subsidy eraLength periodLength : Nat) (hinv : d.third < subsidy) :
    (subsidy = 1 →
      (deriveRarity d subsidy eraLength periodLength = some Rarity.Mythic ∨
       deriveRarity d subsidy eraLength periodLength = some Rarity.Legendary ∨
       deriveRarity d subsidy eraLength periodLength = some Rarity.Epic ∨
       deriveRarity d subsidy eraLength periodLength = some Rarity.Rare ∨
       deriveRarity d subsidy eraLength periodLength = some Rarity.Uncommon)) ∧
    (∀ r, deriveRarity d subsidy eraLength periodLength = some r →
      (r = Rarity.BlackUncommon ∨ r = Rarity.BlackRare ∨
       r = Rarity.BlackEpic ∨ r = Rarity.BlackLegendary) →
      2 ≤ subsidy) := by
  have key : subsidy = 1 →
      (deriveRarity d subsidy eraLength periodLength = some Rarity.Mythic ∨
       deriveRarity d subsidy eraLength periodLength = some Rarity.Legendary ∨
       deriveRarity d subsidy eraLength periodLength = some Rarity.Epic ∨
       deriveRarity d subsidy eraLength periodLength = some Rarity.Rare ∨
       deriveRarity d subsidy eraLength periodLength = some Rarity.Uncommon) := by
    intro h1
    have h3 : d.third = 0 := by omega
    by_cases hho : d.hour = 0 <;> by_cases hmi : d.minute = 0 <;>
      by_cases hse : d.second = 0 <;>
        simp [deriveRarity, h3, hho, hmi, hse]
  refine ⟨key, ?_⟩
  intro r hr hblack
  by_contra hlt
  have h1 : subsidy = 1 := by omega
  rcases key h1 with h | h | h | h | h <;> rw [hr] at h <;>
    simp only [Option.some.injEq] at h <;> subst h <;> simp_all

/-- Witness for C10: with subsidy 1 an ordinary block's sat is Uncommon. -/
theorem C10_black_needs_subsidy_two_witness :
    deriveRarity ⟨0, 3, 4, 0⟩ 1 210000 2016 = some Rarity.Mythic ∨
    deriveRarity ⟨0, 3, 4, 0⟩ 1 210000 2016 = some Rarity.Legendary ∨
    deriveRarity ⟨0, 3, 4, 0⟩ 1 210000 2016 = some Rarity.Epic ∨
    deriveRarity ⟨0, 3, 4, 0⟩ 1 210000 2016 = some Rarity.Rare ∨
    deriveRarity ⟨0, 3, 4, 0⟩ 1 210000 2016 = some Rarity.Uncommon :=
  (C10_black_needs_subsidy_two ⟨0, 3, 4, 0⟩ 1 210000 2016 (by decide)).1 rfl

/-- C3 counterexample: the code's small-integer encoding
(`From<Rarity> for u8`, the cast `rarity as u8`) does not reject the
black tiers: it silently produces the integer `6` for BlackUncommon
(and `9` for BlackLegendary), contradicting the claim that encoding a
black tier yields an explicit unrepresentable outcome. -/
theorem C3_counterexample :
    rarityToU8 Rarity.BlackUncommon = 6 ∧
    rarityToU8 Rarity.BlackLegendary = 9 := by decide

/-- C3 amended: the small-integer encoding is total and maps every tier
to its declaration-order index (Common=0 … Mythic=5, BlackUncommon=6,
BlackRare=7, BlackEpic=8, BlackLegendary=9); black tiers are not rejected
at encoding, but the integers they produce are rejected by decoding,
which fails carrying them back. -/
theorem C3_encoding_total :
    (∀ r : Rarity, rarityToU8 r = tierOrder.indexOf r) ∧
    Rarity.try_from (rarityToU8 Rarity.BlackUncommon) = Except.error 6 ∧
    Rarity.try_from (rarityToU8 Rarity.BlackRare) = Except.error 7 ∧
    Rarity.try_from (rarityToU8 Rarity.BlackEpic) = Except.error 8 ∧
    Rarity.try_from (rarityToU8 Rarity.BlackLegendary) = Except.error 9 := by
  refine ⟨fun r => ?_, rfl, rfl, rfl, rfl⟩
  cases r <;> decide

/-- C5: for each of the ten tiers, serialization succeeds with the
canonical snake-case name and parsing that name returns the tier. -/
theorem C5_string_round_trip (r : Rarity) :
    Rarity.from_str (Rarity.display r) = Except.ok r ∧
    Rarity.display r ∈ canonicalNames := by
  cases r <;> exact ⟨rfl, by decide⟩

/-- C6: parsing fails exactly on strings outside the ten canonical names,
with the message built from the literal text and the input surrounded by
backticks; parsing succeeds exactly on the canonical names. -/
theorem C6_parse_domain (s : String) :
    (s ∉ canonicalNames →
      Rarity.from_str s = Except.error ("invalid rarity `" ++ s ++ "`")) ∧
    (s ∈ canonicalNames ↔ ∃ r, Rarity.from_str s = Except.ok r) := by
  have herr : s ∉ canonicalNames →
      Rarity.from_str s = Except.error ("invalid rarity `" ++ s ++ "`") := by
    intro hs
    simp only [canonicalNames, List.mem_cons, List.not_mem_nil,
      or_false] at hs
    push_neg at hs
    obtain ⟨h1, h2, h3, h4, h5, h6, h7, h8, h9, h10⟩ := hs
    simp [Rarity.from_str, h1, h2, h3, h4, h5, h6, h7, h8, h9, h10]
  refine ⟨herr, ?_, ?_⟩
  · intro hs
    simp only [canonicalNames, List.mem_cons, List.not_mem_nil,
      or_false] at hs
    rcases hs with h | h | h | h | h | h | h | h | h | h <;> subst h <;>
      exact ⟨_, rfl⟩
  · rintro ⟨r, hr⟩
    by_contra hs
    rw [herr hs] at hr
    simp at hr

/-- Witness for C6: parsing the non-canonical string foo fails with the
expected message. -/
theorem C6_parse_domain_witness :
    Rarity.from_str "foo" = Except.error "invalid rarity `foo`" :=
  (C6_parse_domain "foo").1 (by decide)

/-- C7: decoding the integer produced by encoding any one of the six
first-position tiers returns that tier. -/
theorem C7_numeric_round_trip :
    Rarity.try_from (rarityToU8 Rarity.Common) = Except.ok Rarity.Common ∧
    Rarity.try_from (rarityToU8 Rarity.Uncommon) = Except.ok Rarity.Uncommon ∧
    Rarity.try_from (rarityToU8 Rarity.Rare) = Except.ok Rarity.Rare ∧
    Rarity.try_from (rarityToU8 Rarity.Epic) = Except.ok Rarity.Epic ∧
    Rarity.try_from (rarityToU8 Rarity.Legendary) = Except.ok Rarity.Legendary ∧
    Rarity.try_from (rarityToU8 Rarity.Mythic) = Except.ok Rarity.Mythic :=
  ⟨rfl, rfl, rfl, rfl, rfl, rfl⟩

/-- C8: over the `u8` domain, decoding fails with the offending integer
itself as the payload for every input from `6` to `255`, and succeeds for
`0`–`5` with the tier at that position of the fixed encoding order. -/
theorem C8_numeric_domain (n : Nat) (hle : n ≤ 255) :
    (6 ≤ n → Rarity.try_from n = Except.error n) ∧
    (n ≤ 5 →
      Rarity.try_from n = Except.ok (sixTiers.getD n Rarity.Common)) := by
  constructor
  · intro h6
    obtain ⟨m, rfl⟩ : ∃ m, n = m + 6 := ⟨n - 6, by omega⟩
    rfl
  · intro h5
    interval_cases n <;> rfl

/-- Witness for C8 at the inputs 6 and 3. -/
theorem C8_numeric_domain_witness :
    Rarity.try_from 6 = Except.error 6 ∧
    Rarity.try_from 3 = Except.ok Rarity.Epic :=
  ⟨(C8_numeric_domain 6 (by decide)).1 (by decide),
   (C8_numeric_domain 3 (by decide)).2 (by decide)⟩

/-- C9: the derived comparison is the total order given by declaration
order, and two tiers are equal exactly when they carry the same canonical
name. -/
theorem C9_total_order (a b : Rarity) :
    (a < b ↔ tierOrder.indexOf a < tierOrder.indexOf b) ∧
    (a = b ↔ Rarity.display a = Rarity.display b) := by
  cases a <;> cases b <;> decide
